import Mathlib

/-!
Verification of the `markdown-it-task-lists-ts` plugin
(`src/markdown-it-task-lists.ts`) against its specification.

The single source file registers a core ruler pass that walks the flat
markdown-it token stream, detects GitHub-style task markers (`[ ] `,
`[x] `, `[X] `) at the start of a list item's paragraph text, splices an
HTML checkbox fragment into the inline token's children, and propagates
CSS classes backward to the enclosing `list_item_open` /
`bullet_list_open` tokens.

Modelling conventions:
* JavaScript strings are modelled as `List Char` (`chars` converts a Lean
  string literal); `String.prototype.slice(3)` is `List.drop 3`,
  `indexOf(p) === 0` is `List.isPrefixOf`.
* markdown-it `Token` objects are modelled by `Tok` with exactly the
  fields the pass reads or writes: `type`, `tag`, `content`, `children`,
  `attrs`, `nesting` (the `new state.Token('html_inline', '', 0)`
  constructor arguments are type, tag, nesting).
* The module-level mutable variables `disableCheckboxes`,
  `useLabelWrapper`, `useLabelAfter` (lines 111-116 of the source) are an
  explicit `Globals` record: registration (`registerGlobals`) returns the
  updated module state, and the render pass (`taskListsRule`) receives
  the module state current at render time, because the registered closure
  reads the module variables, while the `classes` record (lines 185-190)
  is captured per registration (`capturedClasses`).
* `Math.random()` is an external nondeterministic source; it is modelled
  as an oracle `randoms : Nat → ℚ` giving the result of the n-th call
  within one render pass, threaded through a call counter.
* The three nested `for` loops of the pass (`i`/`j`/`k`) are `iLoop`,
  `jLoop`, `kLoop`: index-incrementing recursions over the mutated token
  list, driven by the loop bound `index < tokens.length`; the extra fuel
  argument (initialised to `tokens.length`, which the pass never changes)
  only makes the recursion structural.
-/

namespace TaskLists

/-- A JavaScript string, as its sequence of characters. -/
def chars (s : String) : List Char := s.data

/-- markdown-it token, restricted to the fields the pass touches. -/
inductive Tok : Type where
  | mk (type : String) (tag : String) (content : List Char)
       (children : Option (List Tok)) (attrs : List (String × List Char))
       (nesting : Int) : Tok

def Tok.type : Tok → String
  | .mk t _ _ _ _ _ => t

def Tok.tag : Tok → String
  | .mk _ g _ _ _ _ => g

def Tok.content : Tok → List Char
  | .mk _ _ c _ _ _ => c

def Tok.children : Tok → Option (List Tok)
  | .mk _ _ _ ch _ _ => ch

def Tok.attrs : Tok → List (String × List Char)
  | .mk _ _ _ _ a _ => a

def Tok.nesting : Tok → Int
  | .mk _ _ _ _ _ n => n

def Tok.setContent : Tok → List Char → Tok
  | .mk t g _ ch a n, c => .mk t g c ch a n

def Tok.setChildren : Tok → Option (List Tok) → Tok
  | .mk t g c _ a n, ch => .mk t g c ch a n

def Tok.setAttrs : Tok → List (String × List Char) → Tok
  | .mk t g c ch _ n, a => .mk t g c ch a n

instance : Inhabited Tok := ⟨.mk "" "" [] none [] 0⟩

/-- Split a character list on spaces (the space-separated words of an
HTML attribute value). -/
def splitW : List Char → List (List Char)
  | [] => [[]]
  | c :: rest =>
    match splitW rest with
    | [] => [[]]
    | w :: ws => if c = ' ' then [] :: w :: ws else (c :: w) :: ws

/-- Modelled from the spec: `Token.attrJoin` belongs to markdown-it, an
external collaborator whose code is not part of this repository.  The
spec's data model (§3) describes token attributes as "an ordered mapping
of attribute name to value, supporting idempotent join (append value to
existing value, space-separated, without duplication)" and §4.4 requires
"applying the same class twice must not duplicate it in the output
attribute value".  So: a value already present as a space-separated word
is not appended again. -/
def joinVal (old v : List Char) : List Char :=
  if v ∈ splitW old then old else old ++ (' ' :: v)

/-- Modelled from the spec: join `v` into the named attribute of an
ordered attribute list, pushing a fresh attribute when the name is
absent (see `joinVal`). -/
def attrsJoin : List (String × List Char) → String → List Char → List (String × List Char)
  | [], n, v => [(n, v)]
  | (m, w) :: rest, n, v =>
    if m = n then (m, joinVal w v) :: rest else (m, w) :: attrsJoin rest n v

/-- Modelled from the spec: `token.attrJoin(name, value)` (see
`joinVal`, `attrsJoin`). -/
def attrJoin (t : Tok) (n : String) (v : List Char) : Tok :=
  t.setAttrs (attrsJoin t.attrs n v)

/-- `s.indexOf(p) === 0` for JavaScript strings: `p` is a prefix of `s`. -/
def indexOfZero (p s : List Char) : Bool :=
  match p with
  | [] => true
  | c :: p' =>
    match s with
    | [] => false
    | d :: s' => c == d && indexOfZero p' s'

/-- Source line 131: `str.indexOf('[ ] ') === 0 || str.indexOf('[x] ') === 0
|| str.indexOf('[X] ') === 0`. -/
def startsWithTodoMarkdown (s : List Char) : Bool :=
  indexOfZero (chars "[ ] ") s || indexOfZero (chars "[x] ") s || indexOfZero (chars "[X] ") s

/-- Source line 141: `token.type === 'list_item_open'`. -/
def isListItem (t : Tok) : Bool := t.type == "list_item_open"

/-- Source line 150: `token.type === 'paragraph_open'`. -/
def isParagraph (t : Tok) : Bool := t.type == "paragraph_open"

/-- Source line 159: `token.type === 'inline'`. -/
def isInline (t : Tok) : Bool := t.type == "inline"

/-- Source line 169: `token.tag === tag && (token.type === 'paragraph_open'
|| token.type === 'paragraph_close')`. -/
def hasOpenOrCloseTag (t : Tok) (tag : String) : Bool :=
  t.tag == tag && (t.type == "paragraph_open" || t.type == "paragraph_close")

/-- The module-level mutable variables of the source (lines 111-116). -/
structure Globals : Type where
  disableCheckboxes : Bool
  useLabelWrapper : Bool
  useLabelAfter : Bool

/-- Initial module state: `let disableCheckboxes = true; let
useLabelWrapper = true; let useLabelAfter = false;`. -/
def initialGlobals : Globals :=
  { disableCheckboxes := true, useLabelWrapper := true, useLabelAfter := false }

/-- `TaskListOptions` (source lines 30-74).  Every field is optional.
`tiptapCompatible` appears in the repository's README options table
("Whether to output HTML compatible with Tiptap's task list extension",
default false) but not in the `TaskListOptions` interface; a JavaScript
caller can pass it, and the implementation never reads it. -/
structure TaskListOptions : Type where
  enabled : Option Bool := none
  label : Option Bool := none
  labelAfter : Option Bool := none
  listClass : Option (List Char) := none
  itemClass : Option (List Char) := none
  checkboxClass : Option (List Char) := none
  labelClass : Option (List Char) := none
  tiptapCompatible : Option Bool := none

/-- The per-registration `classes` record (source lines 185-190). -/
structure Classes : Type where
  list : List Char
  item : List Char
  checkbox : List Char
  label : List Char

/-- Source lines 179-183: `if (options) { disableCheckboxes =
!options.enabled; useLabelWrapper = !!options.label; useLabelAfter =
!!options.labelAfter; }` — the JavaScript truthiness of an absent
(`undefined`) boolean field is false. -/
def registerGlobals (g : Globals) (options : Option TaskListOptions) : Globals :=
  match options with
  | none => g
  | some o =>
    { disableCheckboxes := !(o.enabled.getD false)
      useLabelWrapper := o.label.getD false
      useLabelAfter := o.labelAfter.getD false }

/-- Source lines 185-190: `options?.listClass ?? defaultClasses.list`
etc., captured by value in the registered closure. -/
def capturedClasses (options : Option TaskListOptions) : Classes :=
  { list := (options.bind (·.listClass)).getD (chars "contains-task-list")
    item := (options.bind (·.itemClass)).getD (chars "task-list-item")
    checkbox := (options.bind (·.checkboxClass)).getD (chars "task-list-item-checkbox")
    label := (options.bind (·.labelClass)).getD (chars "task-list-item-label") }

/-- Registration `taskLists(md, options)`: mutates the module globals and
captures the classes record for the pass closure. -/
def taskLists (g : Globals) (options : Option TaskListOptions) : Globals × Classes :=
  (registerGlobals g options, capturedClasses options)

/-- Source line 235: ``task-item-${Math.ceil(Math.random() * (10000 *
1000) - 1000)}`` — the `ctr`-th `Math.random()` result is `randoms ctr`. -/
def taskItemId (randoms : Nat → ℚ) (ctr : Nat) : List Char :=
  chars ("task-item-" ++ toString (Int.ceil (randoms ctr * (10000 * 1000) - 1000)))

/-- Source lines 232-244: build the `html_inline` content for the
checkbox and return it with the updated `Math.random()` call counter. -/
def checkboxContent (g : Globals) (cl : Classes) (randoms : Nat → ℚ)
    (ctr : Nat) (checked : Bool) : List Char × Nat :=
  let disabledAttr := if g.disableCheckboxes then chars " disabled " else chars ""
  let checkedAttr := if checked then chars "checked=\"\" " else chars ""
  if g.useLabelWrapper then
    let id := taskItemId randoms ctr
    let labelOpen := chars "<label class=\"" ++ cl.label ++ chars "\" for=\"" ++ id ++ chars "\">"
    let labelClose := chars "</label>"
    let input := chars "<input class=\"" ++ cl.checkbox ++ chars "\" " ++ disabledAttr
      ++ chars " type=\"checkbox\" " ++ checkedAttr ++ chars " id=\"" ++ id ++ chars "\">"
    (if g.useLabelAfter then input ++ labelOpen ++ labelClose
     else labelOpen ++ input ++ labelClose, ctr + 1)
  else
    (chars "<input class=\"" ++ cl.checkbox ++ chars "\" " ++ disabledAttr
      ++ chars " type=\"checkbox\" " ++ checkedAttr ++ chars ">", ctr)

/-- Source lines 254-257 / 263-264: `while (current >= 0 &&
tokens[current].type !== ty) current--;` starting at `current`, followed
by the `current >= 0` test: the index of the nearest token of the given
type at or before the start index, if any. -/
def scanBack (tokens : List Tok) (ty : String) : Nat → Option Nat
  | 0 => if (tokens.getD 0 default).type == ty then some 0 else none
  | c + 1 =>
    if (tokens.getD (c + 1) default).type == ty then some (c + 1)
    else scanBack tokens ty c

/-- Source lines 224-268: the transformation of the matched inline token
at index `k` — guarded by `token.children && token.children.length > 0`;
computes `checked` from the un-stripped content, strips three characters
from the first child's content and from the aggregate content, unshifts
the checkbox `html_inline` token, then walks backward to class the
nearest `list_item_open` and, from there, the nearest
`bullet_list_open`. -/
def transform (g : Globals) (cl : Classes) (randoms : Nat → ℚ)
    (tokens : List Tok) (ctr k : Nat) : List Tok × Nat :=
  let token := tokens.getD k default
  let checked := indexOfZero (chars "[x]") token.content || indexOfZero (chars "[X]") token.content
  match token.children with
  | some (c0 :: cs) =>
    let c0 := c0.setContent (c0.content.drop 3)
    let cb := checkboxContent g cl randoms ctr checked
    let checkbox : Tok := .mk "html_inline" "" cb.1 none [] 0
    let token := (token.setChildren (some (checkbox :: c0 :: cs))).setContent (token.content.drop 3)
    let tokens := tokens.set k token
    let tokens :=
      match scanBack tokens "list_item_open" k with
      | none => tokens
      | some c =>
        let tokens := tokens.set c (attrJoin (tokens.getD c default) "class" cl.item)
        match scanBack tokens "bullet_list_open" c with
        | none => tokens
        | some c2 => tokens.set c2 (attrJoin (tokens.getD c2 default) "class" cl.list)
    (tokens, cb.2)
  | _ => (tokens, ctr)

/-- Source lines 217-270: `for (let k = j + 1; k < tokens.length; k++)` —
break on a `p`-tagged paragraph open/close, skip non-inline tokens, skip
inline tokens whose content has no marker, otherwise transform in
place. -/
def kLoop (g : Globals) (cl : Classes) (randoms : Nat → ℚ) :
    List Tok → Nat → Nat → Nat → List Tok × Nat
  | tokens, ctr, _, 0 => (tokens, ctr)
  | tokens, ctr, k, fuel + 1 =>
    if k < tokens.length then
      let t := tokens.getD k default
      if hasOpenOrCloseTag t "p" then (tokens, ctr)
      else if ¬ isInline t then kLoop g cl randoms tokens ctr (k + 1) fuel
      else if ¬ startsWithTodoMarkdown t.content then kLoop g cl randoms tokens ctr (k + 1) fuel
      else
        let r := transform g cl randoms tokens ctr k
        kLoop g cl randoms r.1 r.2 (k + 1) fuel
    else (tokens, ctr)

/-- Source lines 211-271: `for (let j = i + 1; j < tokens.length; j++)` —
break on `list_item_close`, skip non-`paragraph_open` tokens, otherwise
run the inner content loop from `j + 1`. -/
def jLoop (g : Globals) (cl : Classes) (randoms : Nat → ℚ) :
    List Tok → Nat → Nat → Nat → List Tok × Nat
  | tokens, ctr, _, 0 => (tokens, ctr)
  | tokens, ctr, j, fuel + 1 =>
    if j < tokens.length then
      let t := tokens.getD j default
      if t.type == "list_item_close" then (tokens, ctr)
      else if ¬ isParagraph t then jLoop g cl randoms tokens ctr (j + 1) fuel
      else
        let r := kLoop g cl randoms tokens ctr (j + 1) tokens.length
        jLoop g cl randoms r.1 r.2 (j + 1) fuel
    else (tokens, ctr)

/-- Source lines 197-272: the outer scan `for (let i = 0; i <
tokens.length; i++)` with the `insideList` flag: set on
`bullet_list_open`, cleared on `bullet_list_close`, non-list-item tokens
and everything outside a list skipped, and each `list_item_open` handled
by the item loop from `i + 1`. -/
def iLoop (g : Globals) (cl : Classes) (randoms : Nat → ℚ) :
    List Tok → Nat → Bool → Nat → Nat → List Tok × Nat
  | tokens, ctr, _, _, 0 => (tokens, ctr)
  | tokens, ctr, insideList, i, fuel + 1 =>
    if i < tokens.length then
      let t := tokens.getD i default
      if t.type == "bullet_list_open" then iLoop g cl randoms tokens ctr true (i + 1) fuel
      else if t.type == "bullet_list_close" then iLoop g cl randoms tokens ctr false (i + 1) fuel
      else if ¬ insideList then iLoop g cl randoms tokens ctr insideList (i + 1) fuel
      else if ¬ isListItem t then iLoop g cl randoms tokens ctr insideList (i + 1) fuel
      else
        let r := jLoop g cl randoms tokens ctr (i + 1) tokens.length
        iLoop g cl randoms r.1 r.2 insideList (i + 1) fuel
    else (tokens, ctr)

/-- The registered core rule (source lines 193-274): one render pass
over the token stream, under the module globals current at render time
and the classes captured at registration time. -/
def taskListsRule (g : Globals) (cl : Classes) (randoms : Nat → ℚ)
    (tokens : List Tok) : List Tok :=
  (iLoop g cl randoms tokens 0 false 0 tokens.length).1

/-! Token streams as markdown-it produces them for the documents used in
the theorems below. -/

/-- A `text` child token of an inline token. -/
def textTok (s : List Char) : Tok := .mk "text" "" s none [] 0

/-- An `inline` token whose single child is the text itself. -/
def inlineTok (s : List Char) : Tok := .mk "inline" "" s (some [textTok s]) [] 1

def pOpen : Tok := .mk "paragraph_open" "p" [] none [] 1

def pClose : Tok := .mk "paragraph_close" "p" [] none [] (-1)

def liOpen : Tok := .mk "list_item_open" "li" [] none [] 1

def liClose : Tok := .mk "list_item_close" "li" [] none [] (-1)

def ulOpen : Tok := .mk "bullet_list_open" "ul" [] none [] 1

def ulClose : Tok := .mk "bullet_list_close" "ul" [] none [] (-1)

/-- The tokens of one tight list item with the given paragraph text. -/
def itemToks (s : List Char) : List Tok := [liOpen, pOpen, inlineTok s, pClose, liClose]

/-- The token stream of `- s` (a one-item bulleted list). -/
def oneItemDoc (s : List Char) : List Tok := [ulOpen] ++ itemToks s ++ [ulClose]

/-- The token stream of a two-item bulleted list. -/
def twoItemDoc (s₁ s₂ : List Char) : List Tok :=
  [ulOpen] ++ itemToks s₁ ++ itemToks s₂ ++ [ulClose]

/-- The token stream of a loose list item holding two paragraphs. -/
def twoParaDoc (s₁ s₂ : List Char) : List Tok :=
  [ulOpen, liOpen, pOpen, inlineTok s₁, pClose, pOpen, inlineTok s₂, pClose, liClose, ulClose]

/-- The token stream of `- a` holding a nested sublist with item `c`,
followed by the top-level sibling item `b`
(`- a\n  - c\n- b`): the sibling's `list_item_open` sits at index 13,
after the nested `bullet_list_close` at index 11. -/
def nestedSiblingDoc (a c b : List Char) : List Tok :=
  [ulOpen, liOpen, pOpen, inlineTok a, pClose,
   ulOpen, liOpen, pOpen, inlineTok c, pClose, liClose, ulClose,
   liClose,
   liOpen, pOpen, inlineTok b, pClose, liClose,
   ulClose]

/-- A concrete `Math.random()` oracle: every call returns `1/2` (a value
`Math.random()` can return, with no guarantee it does not repeat). -/
def rHalf : Nat → ℚ := fun _ => 1/2

/-- The content of a token's first child (the checkbox fragment after an
injection), `[]` when there is none. -/
def firstChildContent (t : Tok) : List Char :=
  match t.children with
  | some (c :: _) => c.content
  | _ => []

attribute [simp] chars Tok.type Tok.tag Tok.content Tok.children Tok.attrs Tok.nesting
  Tok.setContent Tok.setChildren Tok.setAttrs indexOfZero startsWithTodoMarkdown
  isListItem isParagraph isInline hasOpenOrCloseTag initialGlobals registerGlobals
  capturedClasses taskLists checkboxContent transform scanBack attrJoin attrsJoin joinVal
  splitW kLoop jLoop iLoop taskListsRule textTok inlineTok pOpen pClose liOpen liClose
  ulOpen ulClose itemToks oneItemDoc twoItemDoc twoParaDoc nestedSiblingDoc
  firstChildContent List.getD

set_option maxRecDepth 40000
set_option maxHeartbeats 1000000
set_option linter.unnecessarySimpa false

/-- Under the constant-`1/2` oracle every generated identifier is
`task-item-4999000`: `Math.ceil(0.5 * 10000000 - 1000) = 4999000`. -/
@[simp] theorem taskItemId_rHalf (n : Nat) : taskItemId rHalf n = chars "task-item-4999000" := by
  have h : Int.ceil (rHalf n * (10000 * 1000) - 1000) = 4999000 := by
    norm_num [rHalf]
  rw [taskItemId, h]
  rfl

/-- C1, counterexample: for the document `- [ ] A` under the default
registration, the pass strips only 3 characters (`token.content.slice(3)`),
so the inline token's remaining text is `" A"` — not the text with the
4-character prefix (marker plus following space) removed, as the claim
states. -/
theorem claim_C1_counterexample :
    ((taskListsRule initialGlobals (capturedClasses none) rHalf
        (oneItemDoc (chars "[ ] A"))).getD 3 default).content = chars " A" ∧
    ((taskListsRule initialGlobals (capturedClasses none) rHalf
        (oneItemDoc (chars "[ ] A"))).getD 3 default).content ≠ (chars "[ ] A").drop 4 := by
  constructor
  · simp
  · simp

/-- C1, amended: for every list item whose first paragraph's inline text
starts with `"[ ] "`, the pass emits a checkbox built with
`checked = false`, and the remaining text of both the inline token's
content and its (shifted) first text child equals the original text with
only the 3-character bracket marker removed — the following space is
retained; the final conjunct pins down the emitted unchecked checkbox
markup under a concrete oracle (no `checked=""` attribute). -/
theorem claim_C1_amended (s : List Char) (randoms : Nat → ℚ) :
    (((taskListsRule initialGlobals (capturedClasses none) randoms
        (oneItemDoc (chars "[ ] " ++ s))).getD 3 default).content = ' ' :: s ∧
     ((taskListsRule initialGlobals (capturedClasses none) randoms
        (oneItemDoc (chars "[ ] " ++ s))).getD 3 default).children =
       some [Tok.mk "html_inline" ""
               (checkboxContent initialGlobals (capturedClasses none) randoms 0 false).1 none [] 0,
             Tok.mk "text" "" (' ' :: s) none [] 0]) ∧
    (checkboxContent initialGlobals (capturedClasses none) rHalf 0 false).1 =
      chars "<label class=\"task-list-item-label\" for=\"task-item-4999000\"><input class=\"task-list-item-checkbox\"  disabled  type=\"checkbox\"  id=\"task-item-4999000\"></label>" := by
  refine ⟨⟨?_, ?_⟩, ?_⟩ <;> simp

/-- C7: an item whose first paragraph text starts with `"[x] "` or
`"[X] "` gets its checkbox built with `checked = true`, while `"[ ] "`
gives `checked = false`; the closed conjuncts show the `checked=""`
attribute present in the emitted checked markup and absent from the
unchecked one. -/
theorem claim_C7 :
    (∀ (s : List Char) (randoms : Nat → ℚ),
      ((taskListsRule initialGlobals (capturedClasses none) randoms
          (oneItemDoc (chars "[x] " ++ s))).getD 3 default).children =
        some [Tok.mk "html_inline" ""
                (checkboxContent initialGlobals (capturedClasses none) randoms 0 true).1 none [] 0,
              Tok.mk "text" "" (' ' :: s) none [] 0]) ∧
    (∀ (s : List Char) (randoms : Nat → ℚ),
      ((taskListsRule initialGlobals (capturedClasses none) randoms
          (oneItemDoc (chars "[X] " ++ s))).getD 3 default).children =
        some [Tok.mk "html_inline" ""
                (checkboxContent initialGlobals (capturedClasses none) randoms 0 true).1 none [] 0,
              Tok.mk "text" "" (' ' :: s) none [] 0]) ∧
    (∀ (s : List Char) (randoms : Nat → ℚ),
      ((taskListsRule initialGlobals (capturedClasses none) randoms
          (oneItemDoc (chars "[ ] " ++ s))).getD 3 default).children =
        some [Tok.mk "html_inline" ""
                (checkboxContent initialGlobals (capturedClasses none) randoms 0 false).1 none [] 0,
              Tok.mk "text" "" (' ' :: s) none [] 0]) ∧
    (checkboxContent initialGlobals (capturedClasses none) rHalf 0 true).1 =
      chars "<label class=\"task-list-item-label\" for=\"task-item-4999000\"><input class=\"task-list-item-checkbox\"  disabled  type=\"checkbox\" checked=\"\"  id=\"task-item-4999000\"></label>" ∧
    (checkboxContent initialGlobals (capturedClasses none) rHalf 0 false).1 =
      chars "<label class=\"task-list-item-label\" for=\"task-item-4999000\"><input class=\"task-list-item-checkbox\"  disabled  type=\"checkbox\"  id=\"task-item-4999000\"></label>" := by
  refine ⟨fun s randoms => ?_, fun s randoms => ?_, fun s randoms => ?_, ?_, ?_⟩ <;> simp

/-- C6, counterexample: in a loose list item whose first paragraph is
`A` and whose second paragraph is `[ ] B`, the item loop does not stop
after the first paragraph (it only breaks on `list_item_close`), so the
second paragraph's marker IS transformed: its inline token is no longer
the untouched `inlineTok "[ ] B"` — its content became `" B"` and a
checkbox child was injected. -/
theorem claim_C6_counterexample :
    ((taskListsRule initialGlobals (capturedClasses none) rHalf
        (twoParaDoc (chars "A") (chars "[ ] B"))).getD 6 default).content = chars " B" ∧
    ((taskListsRule initialGlobals (capturedClasses none) rHalf
        (twoParaDoc (chars "A") (chars "[ ] B"))).getD 6 default).content ≠
      (inlineTok (chars "[ ] B")).content := by
  have h : ((taskListsRule initialGlobals (capturedClasses none) rHalf
      (twoParaDoc (chars "A") (chars "[ ] B"))).getD 6 default).content = chars " B" := by
    simp
  refine ⟨h, ?_⟩
  rw [h]
  decide

/-- C6, amended: every paragraph of the list item up to the item's first
`list_item_close` token is tested against the marker prefixes, and each
matching paragraph receives its own injection: with the non-matching
first paragraph `A`, the first paragraph's inline token is left
untouched while a marker-prefixed second paragraph of the same item is
transformed. -/
theorem claim_C6_amended (b : List Char) (randoms : Nat → ℚ) :
    (taskListsRule initialGlobals (capturedClasses none) randoms
        (twoParaDoc (chars "A") (chars "[ ] " ++ b))).getD 3 default = inlineTok (chars "A") ∧
    ((taskListsRule initialGlobals (capturedClasses none) randoms
        (twoParaDoc (chars "A") (chars "[ ] " ++ b))).getD 6 default).content = ' ' :: b ∧
    ((taskListsRule initialGlobals (capturedClasses none) randoms
        (twoParaDoc (chars "A") (chars "[ ] " ++ b))).getD 6 default).children =
      some [Tok.mk "html_inline" ""
              (checkboxContent initialGlobals (capturedClasses none) randoms 0 false).1 none [] 0,
            Tok.mk "text" "" (' ' :: b) none [] 0] := by
  refine ⟨?_, ?_, ?_⟩ <;> simp

/-- C2, code evaluation: the implementation never reads
`tiptapCompatible`.  Registering with `tiptapCompatible = true` (plus
`enabled` and `label`) and rendering `- [ ] A` still injects a literal
`<input` element, and no token anywhere carries a `data-type` or
`data-checked` attribute; moreover registration ignores the flag
entirely (same globals and captured classes for any value of it),
contradicting the README's documented Tiptap compatibility mode. -/
theorem claim_C2_code_evaluation :
    (∀ (g : Globals) (o : TaskListOptions) (b : Option Bool),
      taskLists g (some { o with tiptapCompatible := b }) = taskLists g (some o)) ∧
    (chars "<input").isPrefixOf
      (firstChildContent
        ((taskListsRule
            (registerGlobals initialGlobals
              (some { enabled := some true, label := some false, tiptapCompatible := some true }))
            (capturedClasses
              (some { enabled := some true, label := some false, tiptapCompatible := some true }))
            rHalf (oneItemDoc (chars "[ ] A"))).getD 3 default)) = true ∧
    ((taskListsRule
        (registerGlobals initialGlobals
          (some { enabled := some true, label := some false, tiptapCompatible := some true }))
        (capturedClasses
          (some { enabled := some true, label := some false, tiptapCompatible := some true }))
        rHalf (oneItemDoc (chars "[ ] A"))).all
      (fun t => t.attrs.all
        (fun p => !(p.1 == "data-type" || p.1 == "data-checked")))) = true := by
  refine ⟨fun g o b => rfl, ?_, ?_⟩ <;> simp

/-- C3, code evaluation: `enabled`, `label` and `labelAfter` live in
module-level mutable variables that every registration overwrites.
After a first registration with `enabled = true, label = true` and a
second registration (on another parser instance) with
`enabled = false`, a render pass belonging to the *first* registration
emits a disabled, label-less checkbox — the options supplied at its own
registration time are not honoured. -/
theorem claim_C3_code_evaluation :
    (({ enabled := some true, label := some true, labelAfter := some false } :
        TaskListOptions).enabled = some true ∧
     ({ enabled := some true, label := some true, labelAfter := some false } :
        TaskListOptions).label = some true) ∧
    firstChildContent
      ((taskListsRule
          (registerGlobals
            (registerGlobals initialGlobals
              (some { enabled := some true, label := some true, labelAfter := some false }))
            (some { enabled := some false }))
          (capturedClasses
            (some { enabled := some true, label := some true, labelAfter := some false }))
          rHalf (oneItemDoc (chars "[ ] A"))).getD 3 default) =
      chars "<input class=\"task-list-item-checkbox\"  disabled  type=\"checkbox\" >" ∧
    firstChildContent
      ((taskListsRule
          (registerGlobals initialGlobals
            (some { enabled := some true, label := some true, labelAfter := some false }))
          (capturedClasses
            (some { enabled := some true, label := some true, labelAfter := some false }))
          rHalf (oneItemDoc (chars "[ ] A"))).getD 3 default) =
      chars "<label class=\"task-list-item-label\" for=\"task-item-4999000\"><input class=\"task-list-item-checkbox\"  type=\"checkbox\"  id=\"task-item-4999000\"></label>" := by
  refine ⟨⟨rfl, rfl⟩, ?_, ?_⟩ <;> simp

/-- C4, code evaluation: registration executes `useLabelWrapper =
!!options.label`, so an options object in which the `label` key is
absent sets the wrapper flag to `false` — contrary to the documented
default of `true` — and the emitted checkbox is a bare `<input>` with no
label element. -/
theorem claim_C4_code_evaluation :
    (({ enabled := some true } : TaskListOptions).label = none) ∧
    (registerGlobals initialGlobals (some { enabled := some true })).useLabelWrapper = false ∧
    firstChildContent
      ((taskListsRule (registerGlobals initialGlobals (some { enabled := some true }))
          (capturedClasses (some { enabled := some true }))
          rHalf (oneItemDoc (chars "[ ] A"))).getD 3 default) =
      chars "<input class=\"task-list-item-checkbox\"  type=\"checkbox\" >" := by
  refine ⟨rfl, rfl, ?_⟩
  simp

/-- C8, code evaluation: identifiers come from `Math.random()`, which
can return the same value on consecutive calls.  Under an oracle whose
calls all return `0.5`, the two checkboxes of `- [ ] A\n- [ ] B` are
emitted with the *same* markup — in particular the same
`task-item-4999000` identifier appears as the label's `for` target and
the input's `id` in both items. -/
theorem claim_C8_code_evaluation :
    firstChildContent
      ((taskListsRule initialGlobals (capturedClasses none) rHalf
          (twoItemDoc (chars "[ ] A") (chars "[ ] B"))).getD 3 default) =
      chars "<label class=\"task-list-item-label\" for=\"task-item-4999000\"><input class=\"task-list-item-checkbox\"  disabled  type=\"checkbox\"  id=\"task-item-4999000\"></label>" ∧
    firstChildContent
      ((taskListsRule initialGlobals (capturedClasses none) rHalf
          (twoItemDoc (chars "[ ] A") (chars "[ ] B"))).getD 8 default) =
      chars "<label class=\"task-list-item-label\" for=\"task-item-4999000\"><input class=\"task-list-item-checkbox\"  disabled  type=\"checkbox\"  id=\"task-item-4999000\"></label>" := by
  constructor <;> simp

theorem splitW_ne_nil (l : List Char) : splitW l ≠ [] := by
  cases l with
  | nil => simp [splitW]
  | cons c rest =>
    cases h : splitW rest with
    | nil => simp [splitW, h]
    | cons w ws =>
      by_cases hc : c = ' ' <;> simp [splitW, h, hc]

theorem splitW_append_space (x y : List Char) :
    splitW (x ++ ' ' :: y) = splitW x ++ splitW y := by
  induction x with
  | nil =>
    obtain ⟨w, ws, hy⟩ := List.exists_cons_of_ne_nil (splitW_ne_nil y)
    simp [splitW, hy]
  | cons c x ih =>
    obtain ⟨w, ws, hx⟩ := List.exists_cons_of_ne_nil (splitW_ne_nil x)
    obtain ⟨u, us, hxy⟩ := List.exists_cons_of_ne_nil (splitW_ne_nil (x ++ ' ' :: y))
    by_cases hc : c = ' ' <;>
      simp [splitW, hc, ih, hx, hxy]

theorem splitW_no_space (v : List Char) (h : ' ' ∉ v) : splitW v = [v] := by
  induction v with
  | nil => simp [splitW]
  | cons c v ih =>
    have hc : c ≠ ' ' := fun e => h (e ▸ List.mem_cons_self c v)
    have hv : ' ' ∉ v := fun m => h (List.mem_cons_of_mem c m)
    simp [splitW, ih hv, hc]

theorem mem_splitW_joinVal (w v : List Char) (h : ' ' ∉ v) : v ∈ splitW (joinVal w v) := by
  by_cases hm : v ∈ splitW w
  · rw [joinVal, if_pos hm]
    exact hm
  · rw [joinVal, if_neg hm, splitW_append_space, splitW_no_space v h]
    exact List.mem_append_right _ (List.mem_singleton_self v)

theorem joinVal_idem (w v : List Char) (h : ' ' ∉ v) :
    joinVal (joinVal w v) v = joinVal w v := by
  have hm := mem_splitW_joinVal w v h
  rw [joinVal, if_pos hm]

theorem joinVal_self (v : List Char) (h : ' ' ∉ v) : joinVal v v = v := by
  have hm : v ∈ splitW v := by
    rw [splitW_no_space v h]
    exact List.mem_singleton_self v
  rw [joinVal, if_pos hm]

theorem attrsJoin_idem (l : List (String × List Char)) (n : String) (v : List Char)
    (h : ' ' ∉ v) : attrsJoin (attrsJoin l n v) n v = attrsJoin l n v := by
  induction l with
  | nil =>
    rw [attrsJoin, attrsJoin, if_pos rfl, joinVal_self v h]
  | cons p rest ih =>
    obtain ⟨m, w⟩ := p
    by_cases hmn : m = n
    · subst hmn
      rw [attrsJoin, if_pos rfl, attrsJoin, if_pos rfl, joinVal_idem w v h]
    · rw [attrsJoin, if_neg hmn, attrsJoin, if_neg hmn, ih]

theorem attrJoin_idem (t : Tok) (n : String) (v : List Char) (h : ' ' ∉ v) :
    attrJoin (attrJoin t n v) n v = attrJoin t n v := by
  cases t
  simp only [attrJoin, Tok.setAttrs, Tok.attrs]
  rw [attrsJoin_idem _ n v h]

/-- C5: class propagation to the shared container is idempotent.  The
spec-modelled `attrJoin` (markdown-it is external; the spec's data model
describes the join as idempotent) never duplicates a space-free class
value: joining twice equals joining once, any positive number of joins —
one per matched item sharing the container — equals a single join, and
after the pass over a two-matched-item list the container's class
attribute holds the configured list class exactly once. -/
theorem claim_C5 :
    (∀ (t : Tok) (n : String) (v : List Char), ' ' ∉ v →
      attrJoin (attrJoin t n v) n v = attrJoin t n v) ∧
    (∀ (m : Nat) (t : Tok) (n : String) (v : List Char), ' ' ∉ v →
      (fun tok => attrJoin tok n v)^[m + 1] t = attrJoin t n v) ∧
    (∀ randoms : Nat → ℚ,
      ((taskListsRule initialGlobals (capturedClasses none) randoms
          (twoItemDoc (chars "[ ] A") (chars "[x] B"))).getD 0 default).attrs =
        [("class", chars "contains-task-list")]) := by
  refine ⟨fun t n v h => attrJoin_idem t n v h, fun m t n v h => ?_, fun randoms => by simp⟩
  induction m with
  | zero => simp
  | succ m ih =>
    rw [Function.iterate_succ_apply', ih]
    exact attrJoin_idem t n v h

/-- Witness for `claim_C5` at the container token and the default list
class. -/
theorem claim_C5_witness :
    attrJoin (attrJoin ulOpen "class" (chars "contains-task-list")) "class"
        (chars "contains-task-list") =
      attrJoin ulOpen "class" (chars "contains-task-list") :=
  claim_C5.1 ulOpen "class" (chars "contains-task-list") (by decide)

/-! Shape preservation (C9): the pass only mutates `content`, `children`
and `attrs` of existing tokens, so the token list keeps its length and
every position keeps its `type`, `tag` and `nesting`. -/

@[simp] theorem Tok.type_setContent (t : Tok) (c : List Char) :
    (t.setContent c).type = t.type := by
  cases t; rfl

@[simp] theorem Tok.tag_setContent (t : Tok) (c : List Char) :
    (t.setContent c).tag = t.tag := by
  cases t; rfl

@[simp] theorem Tok.nesting_setContent (t : Tok) (c : List Char) :
    (t.setContent c).nesting = t.nesting := by
  cases t; rfl

@[simp] theorem Tok.type_setChildren (t : Tok) (ch : Option (List Tok)) :
    (t.setChildren ch).type = t.type := by
  cases t; rfl

@[simp] theorem Tok.tag_setChildren (t : Tok) (ch : Option (List Tok)) :
    (t.setChildren ch).tag = t.tag := by
  cases t; rfl

@[simp] theorem Tok.nesting_setChildren (t : Tok) (ch : Option (List Tok)) :
    (t.setChildren ch).nesting = t.nesting := by
  cases t; rfl

@[simp] theorem Tok.type_attrJoin (t : Tok) (n : String) (v : List Char) :
    (attrJoin t n v).type = t.type := by
  cases t; rfl

@[simp] theorem Tok.tag_attrJoin (t : Tok) (n : String) (v : List Char) :
    (attrJoin t n v).tag = t.tag := by
  cases t; rfl

@[simp] theorem Tok.nesting_attrJoin (t : Tok) (n : String) (v : List Char) :
    (attrJoin t n v).nesting = t.nesting := by
  cases t; rfl

/-- Shape equality: same length, and pointwise equal type, tag and
nesting. -/
def shapeEq (l₁ l₂ : List Tok) : Prop :=
  l₁.length = l₂.length ∧
  ∀ n : Nat, (l₁.getD n default).type = (l₂.getD n default).type ∧
    (l₁.getD n default).tag = (l₂.getD n default).tag ∧
    (l₁.getD n default).nesting = (l₂.getD n default).nesting

theorem shapeEq_refl (l : List Tok) : shapeEq l l := ⟨rfl, fun _ => ⟨rfl, rfl, rfl⟩⟩

theorem shapeEq_trans {a b c : List Tok} (h : shapeEq a b) (h' : shapeEq b c) : shapeEq a c :=
  ⟨h.1.trans h'.1, fun n =>
    ⟨(h.2 n).1.trans (h'.2 n).1, (h.2 n).2.1.trans (h'.2 n).2.1,
     (h.2 n).2.2.trans (h'.2 n).2.2⟩⟩

theorem shapeEq_set : ∀ (l : List Tok) (k : Nat) (t' : Tok),
    (l.getD k default).type = t'.type →
    (l.getD k default).tag = t'.tag →
    (l.getD k default).nesting = t'.nesting →
    shapeEq l (l.set k t')
  | [], _, t', _, _, _ => by
    simpa using shapeEq_refl []
  | a :: l, 0, t', h1, h2, h3 => by
    refine ⟨by simp, fun n => ?_⟩
    cases n with
    | zero => exact ⟨h1, h2, h3⟩
    | succ n => exact ⟨rfl, rfl, rfl⟩
  | a :: l, k + 1, t', h1, h2, h3 => by
    have ih := shapeEq_set l k t' h1 h2 h3
    refine ⟨by simpa using ih.1, fun n => ?_⟩
    cases n with
    | zero => exact ⟨rfl, rfl, rfl⟩
    | succ n => exact ih.2 n

/-- Replacing a token by the same token with new children and content
preserves the shape. -/
theorem shapeEq_setCC (l : List Tok) (k : Nat) (ch : Option (List Tok)) (c : List Char) :
    shapeEq l (l.set k (((l.getD k default).setChildren ch).setContent c)) :=
  shapeEq_set l k _
    (by rw [Tok.type_setContent, Tok.type_setChildren])
    (by rw [Tok.tag_setContent, Tok.tag_setChildren])
    (by rw [Tok.nesting_setContent, Tok.nesting_setChildren])

/-- Joining an attribute into a token in place preserves the shape. -/
theorem shapeEq_set_attrJoin (l : List Tok) (c : Nat) (n : String) (v : List Char) :
    shapeEq l (l.set c (attrJoin (l.getD c default) n v)) :=
  shapeEq_set l c _
    (Tok.type_attrJoin _ _ _).symm
    (Tok.tag_attrJoin _ _ _).symm
    (Tok.nesting_attrJoin _ _ _).symm

theorem transform_shapeEq (g : Globals) (cl : Classes) (r : Nat → ℚ)
    (tokens : List Tok) (ctr k : Nat) :
    shapeEq tokens (transform g cl r tokens ctr k).1 := by
  rw [transform]
  cases hch : (tokens.getD k default).children with
  | none => exact shapeEq_refl tokens
  | some cs =>
    cases cs with
    | nil => exact shapeEq_refl tokens
    | cons c0 rest =>
      dsimp only
      split
      · exact shapeEq_setCC tokens k _ _
      · split
        · exact shapeEq_trans (shapeEq_setCC tokens k _ _) (shapeEq_set_attrJoin _ _ _ _)
        · exact shapeEq_trans (shapeEq_setCC tokens k _ _)
            (shapeEq_trans (shapeEq_set_attrJoin _ _ _ _) (shapeEq_set_attrJoin _ _ _ _))

theorem kLoop_shapeEq (g : Globals) (cl : Classes) (r : Nat → ℚ) :
    ∀ (fuel : Nat) (tokens : List Tok) (ctr k : Nat),
      shapeEq tokens (kLoop g cl r tokens ctr k fuel).1
  | 0, tokens, _, _ => shapeEq_refl tokens
  | fuel + 1, tokens, ctr, k => by
    simp only [kLoop]
    repeat' split
    all_goals first
      | exact shapeEq_refl tokens
      | exact kLoop_shapeEq g cl r fuel tokens ctr (k + 1)
      | exact shapeEq_trans (transform_shapeEq g cl r tokens ctr k)
          (kLoop_shapeEq g cl r fuel _ _ _)

theorem jLoop_shapeEq (g : Globals) (cl : Classes) (r : Nat → ℚ) :
    ∀ (fuel : Nat) (tokens : List Tok) (ctr j : Nat),
      shapeEq tokens (jLoop g cl r tokens ctr j fuel).1
  | 0, tokens, _, _ => shapeEq_refl tokens
  | fuel + 1, tokens, ctr, j => by
    simp only [jLoop]
    repeat' split
    all_goals first
      | exact shapeEq_refl tokens
      | exact jLoop_shapeEq g cl r fuel tokens ctr (j + 1)
      | exact shapeEq_trans (kLoop_shapeEq g cl r tokens.length tokens ctr (j + 1))
          (jLoop_shapeEq g cl r fuel _ _ _)

theorem iLoop_shapeEq (g : Globals) (cl : Classes) (r : Nat → ℚ) :
    ∀ (fuel : Nat) (tokens : List Tok) (ctr : Nat) (insideList : Bool) (i : Nat),
      shapeEq tokens (iLoop g cl r tokens ctr insideList i fuel).1
  | 0, tokens, _, _, _ => shapeEq_refl tokens
  | fuel + 1, tokens, ctr, insideList, i => by
    simp only [iLoop]
    repeat' split
    all_goals first
      | exact shapeEq_refl tokens
      | exact iLoop_shapeEq g cl r fuel tokens ctr true (i + 1)
      | exact iLoop_shapeEq g cl r fuel tokens ctr false (i + 1)
      | exact iLoop_shapeEq g cl r fuel tokens ctr insideList (i + 1)
      | exact shapeEq_trans (jLoop_shapeEq g cl r tokens.length tokens ctr (i + 1))
          (iLoop_shapeEq g cl r fuel _ _ insideList (i + 1))

/-- C9: for every token sequence, the pass preserves the top-level
sequence's length and, pointwise at every index, the token's type, tag
and nesting: it never reorders, removes or inserts top-level tokens —
its mutations are confined to content, children and attributes of
existing tokens (the checkbox is inserted as a child of the inline
token). -/
theorem claim_C9 (g : Globals) (cl : Classes) (randoms : Nat → ℚ) (tokens : List Tok) :
    (taskListsRule g cl randoms tokens).length = tokens.length ∧
    ∀ n : Nat,
      ((taskListsRule g cl randoms tokens).getD n default).type = (tokens.getD n default).type ∧
      ((taskListsRule g cl randoms tokens).getD n default).tag = (tokens.getD n default).tag ∧
      ((taskListsRule g cl randoms tokens).getD n default).nesting = (tokens.getD n default).nesting := by
  have h := iLoop_shapeEq g cl randoms tokens.length tokens 0 false 0
  exact ⟨h.1.symm, fun n => ⟨(h.2 n).1.symm, (h.2 n).2.1.symm, (h.2 n).2.2.symm⟩⟩

/-- Once the scan index is past the end of the token list, the outer
loop returns immediately, whatever the remaining fuel. -/
theorem iLoop_stop (g : Globals) (cl : Classes) (r : Nat → ℚ) (tokens : List Tok)
    (ctr : Nat) (insideList : Bool) (i fuel : Nat) (h : ¬ i < tokens.length) :
    iLoop g cl r tokens ctr insideList i fuel = (tokens, ctr) := by
  cases fuel with
  | zero => rfl
  | succ fuel =>
    rw [iLoop, if_neg h]

/-- C10: after a `bullet_list_close` clears `insideList`, the outer scan
skips every token — in particular every `list_item_open` — until the
next `bullet_list_open`: (a) whenever `insideList` is false and the
current token is not a `bullet_list_open`, the loop iteration changes
nothing and moves on with `insideList` still false; and (b) in the
document `- A / (nested) - [ ] C / - [ ] B`, whose top-level sibling
`- [ ] B` opens right after the nested sublist's close, the nested item
`C` is transformed but the sibling's `list_item_open` (index 13) keeps
no class and its marker-prefixed inline token (index 15) is left
entirely untransformed. -/
theorem claim_C10 :
    (∀ (g : Globals) (cl : Classes) (randoms : Nat → ℚ) (tokens : List Tok) (ctr i fuel : Nat),
      (tokens.getD i default).type ≠ "bullet_list_open" →
      iLoop g cl randoms tokens ctr false i (fuel + 1) =
        iLoop g cl randoms tokens ctr false (i + 1) fuel) ∧
    (((taskListsRule initialGlobals (capturedClasses none) rHalf
        (nestedSiblingDoc (chars "A") (chars "[ ] C") (chars "[ ] B"))).getD 8 default).content =
      chars " C" ∧
     (taskListsRule initialGlobals (capturedClasses none) rHalf
        (nestedSiblingDoc (chars "A") (chars "[ ] C") (chars "[ ] B"))).getD 15 default =
       inlineTok (chars "[ ] B") ∧
     (taskListsRule initialGlobals (capturedClasses none) rHalf
        (nestedSiblingDoc (chars "A") (chars "[ ] C") (chars "[ ] B"))).getD 13 default =
       liOpen) := by
  constructor
  · intro g cl randoms tokens ctr i fuel h
    by_cases hi : i < tokens.length
    · have hb : ((tokens.getD i default).type == "bullet_list_open") = false := by
        simpa using h
      rw [iLoop]
      rw [if_pos hi]
      simp only [hb, Bool.false_eq_true, if_false]
      by_cases hc : ((tokens.getD i default).type == "bullet_list_close") = true
      · rw [if_pos hc]
      · rw [if_neg hc]
        simp
    · rw [iLoop, if_neg hi, iLoop_stop g cl randoms tokens ctr false (i + 1) fuel (by omega)]
  · refine ⟨?_, ?_, ?_⟩ <;> simp

/-- Witness for `claim_C10`: one skipping step of the loop at the
sibling's `list_item_open` (index 13), with `insideList` false. -/
theorem claim_C10_witness :
    iLoop initialGlobals (capturedClasses none) rHalf
      (nestedSiblingDoc (chars "A") (chars "[ ] C") (chars "[ ] B")) 0 false 13 6 =
    iLoop initialGlobals (capturedClasses none) rHalf
      (nestedSiblingDoc (chars "A") (chars "[ ] C") (chars "[ ] B")) 0 false 14 5 :=
  claim_C10.1 initialGlobals (capturedClasses none) rHalf
    (nestedSiblingDoc (chars "A") (chars "[ ] C") (chars "[ ] B")) 0 13 5 (by decide)

end TaskLists
